import Mathlib

/-!
# BitFloppy firmware — shallow embedding and verification

Shallow embedding of the BitFloppy ESP32 firmware control plane
(`src/main.cpp`, `src/crypto.cpp`, `src/memory.cpp`, `src/eeprom.cpp`).

The cryptographic derivation library (`HDPrivateKey` from the Bitcoin
Arduino library) is an external collaborator; it is modelled as an
abstract oracle `HDOracle` mapping (mnemonic, passphrase, path) to the
strings the firmware consumes (`xprv()`, `xpub()`, `address()`, `wif()`).
The FAT filesystem is modelled as a record holding exactly the files the
firmware touches; the NVS persistent register is a record of the five
keys used under the `storage` namespace.
-/

namespace BitFloppy

/-! ## Status constants (crypto.h lines 18-25) -/

abbrev STATUS_UNKNOWN : Nat := 0
abbrev STATUS_EMPTY : Nat := 1
abbrev STATUS_LOCKED : Nat := 2
abbrev STATUS_UNLOCKED : Nat := 3
abbrev STATUS_CUSTOM_EMPTY : Nat := 4
abbrev STATUS_CUSTOM_LOCKED : Nat := 5
abbrev STATUS_CUSTOM_UNLOCKED : Nat := 6
abbrev STATUS_FORMAT : Nat := 7

/-- The fixed redaction marker written in place of private keys when the
device is locked (memory.cpp lines 35, 48, 58). -/
def redactionMarker : String := "**********"

/-! ## External derivation collaborator (Bitcoin library), abstract -/

/-- Abstract model of the HD key-derivation library.  The first two
string arguments are always the mnemonic and passphrase (the seed of
`HDPrivateKey hd(mnemonic, passphrase)`), the third the account
derivation path handed to `hd.derive(path)`; for child keys the fourth
argument is the relative child path handed to `account.derive(inpath)`. -/
structure HDOracle where
  xprv : String → String → String → String
  xpub : String → String → String → String
  childAddress : String → String → String → String → String
  childWif : String → String → String → String → String

/-- One tab-separated row of `addresses.txt` / `changes.txt`
(memory.cpp lines 49 and 59 build exactly `path + "\t" + address + "\t" + key`). -/
structure Row where
  path : String
  address : String
  key : String
deriving DecidableEq, Repr

/-- The string actually printed for a row (memory.cpp lines 49, 59). -/
def Row.render (r : Row) : String := r.path ++ "\t" ++ r.address ++ "\t" ++ r.key

/-- Contents of one `/bip{index}` output directory as written by `deriveBIP`. -/
structure BipDir where
  dir : String
  xpriv : String
  xpub : String
  addressRows : List Row
  changeRows : List Row
deriving DecidableEq, Repr

/-- Lines of `xpriv.txt` (memory.cpp lines 34-37: a single println). -/
def BipDir.xprivFile (d : BipDir) : List String := [d.xpriv]

/-- Lines of `xpub.txt` (memory.cpp lines 38-40). -/
def BipDir.xpubFile (d : BipDir) : List String := [d.xpub]

/-- Lines of `addresses.txt` (memory.cpp lines 43-52). -/
def BipDir.addressesFile (d : BipDir) : List String := d.addressRows.map Row.render

/-- Lines of `changes.txt` (memory.cpp lines 53-62). -/
def BipDir.changesFile (d : BipDir) : List String := d.changeRows.map Row.render

/-- The account-level derivation path built in memory.cpp lines 25-31:
`"m/" + index + "'/"` then `"1"` (testnet) or `"0"` (mainnet), then `"'/0'"`. -/
def accountPath (index : Nat) (testnet : Bool) : String :=
  "m/" ++ toString index ++ "'/" ++ (if testnet then "1" else "0") ++ "'/0'"

/-- `deriveBIP(int index, bool unlocked)` (memory.cpp lines 22-63).
Globals `mnemonic`, `passphrase`, `testnet` are passed explicitly.
`inpath.substring(1)` is `String.drop 1`. -/
def deriveBIP (o : HDOracle) (mnemonic passphrase : String) (testnet : Bool)
    (index : Nat) (unlocked : Bool) : BipDir :=
  let directory := "/bip" ++ toString index
  let path := accountPath index testnet
  { dir := directory
    xpriv := if unlocked then o.xprv mnemonic passphrase path else redactionMarker
    xpub := o.xpub mnemonic passphrase path
    addressRows := (List.range 10).map (fun i =>
      let inpath := "m/0/" ++ toString i
      { path := path ++ inpath.drop 1
        address := o.childAddress mnemonic passphrase path inpath
        key := if unlocked then o.childWif mnemonic passphrase path inpath
               else redactionMarker })
    changeRows := (List.range 10).map (fun i =>
      let inpath := "m/1/" ++ toString i
      { path := path ++ inpath.drop 1
        address := o.childAddress mnemonic passphrase path inpath
        key := if unlocked then o.childWif mnemonic passphrase path inpath
               else redactionMarker }) }

/-! ## File readers (memory.cpp lines 83-128) -/

/-- `s` contains `pat` as a substring (model of `String.indexOf(pat) != -1`). -/
def containsSubstring (s pat : String) : Bool :=
  decide (pat.data <:+: s.data)

/-- `readMnemonic()` (memory.cpp lines 83-95): returns the whole file
content, or `""` when `/mnemonic.txt` does not exist. -/
def readMnemonic (mnemonicFile : Option String) : String :=
  mnemonicFile.getD ""

/-- `readPassphrase()` (memory.cpp lines 97-109). -/
def readPassphrase (passphraseFile : Option String) : String :=
  passphraseFile.getD ""

/-- `readNetwork()` (memory.cpp lines 111-128): when `/network.txt`
exists, lower-case its content and return `false` exactly when
`indexOf("testnet") == -1`; when the file does not exist, return `true`. -/
def readNetwork (networkFile : Option String) : Bool :=
  match networkFile with
  | some content =>
      if containsSubstring content.toLower "testnet" then true else false
  | none => true

/-! ## Device state: globals (crypto.cpp lines 3-7), NVS register, FAT surface -/

/-- The global variables of crypto.cpp lines 3-7 (minus the restart
counter, treated separately with the boot counter pass). -/
structure Globals where
  status : Nat
  mnemonic : String
  passphrase : String
  testnet : Bool
deriving DecidableEq, Repr

/-- The NVS `storage` namespace (eeprom.cpp): keys `restart_counter`,
`status`, `mnemonic`, `passphrase`, `testnet`; `none` = key not present. -/
structure NVS where
  counter : Option Int
  status : Option Nat
  mnemonic : Option String
  passphrase : Option String
  testnet : Option Bool
deriving DecidableEq, Repr

/-- The FAT volume as the set of files the firmware touches.  Sentinel
and marker files whose content is never read are booleans (present or
not); files whose content is read or rewritten carry their content.
The FAT filesystem is case-insensitive, so `/MNEMONIC.txt` written by
the host and `/mnemonic.txt` read by `readMnemonic` are one file. -/
structure FS where
  format_txt : Bool
  unlock_txt : Bool
  locked_txt : Bool
  unlocked_txt : Bool
  custom_txt : Bool
  readme_txt : Bool
  mnemonic_txt : Option String
  passphrase_txt : Option String
  network_txt : Option String
  bip44 : Option BipDir
  bip49 : Option BipDir
  bip84 : Option BipDir
deriving DecidableEq, Repr

/-- The kinds of storage operation `processStatus` can perform.  By
construction `processStatus` only touches the internal FAT mount and
the NVS register (it calls no USB/MSC function), which the type records. -/
inductive InternalOp
  | fsAccess
  | nvsAccess
deriving DecidableEq, Repr

/-- Boot-level events for the ownership handoff (main.cpp `setup()`). -/
inductive Event
  | nvsOp
  | internalMountEv
  | fsOp
  | internalUnmountEv
  | externalMountEv
  | rebootEv
deriving DecidableEq, Repr

/-- Internal storage operations as boot-level events. -/
def InternalOp.toEvent : InternalOp → Event
  | .fsAccess => .fsOp
  | .nvsAccess => .nvsOp

/-- Events touching the internal FAT mount. -/
def Event.isInternalFsOp : Event → Bool
  | .internalMountEv => true
  | .fsOp => true
  | .internalUnmountEv => true
  | _ => false

/-- Result of a side-channel check or a `processStatus` pass. -/
structure StepResult where
  g : Globals
  nvs : NVS
  fs : FS
  trace : List InternalOp
deriving Repr

/-! ## File writers and sentinel checks (memory.cpp) -/

/-- `writeHelp()` (memory.cpp lines 130-157): rewrites `/README.txt`
with fixed usage text; only its presence is modelled. -/
def writeHelp (fs : FS) : FS := { fs with readme_txt := true }

/-- `writePreferences(mnemonic, passphrase, network)` (memory.cpp lines
159-172): writes `mnemonic.txt`, `passphrase.txt`, `network.txt` (the
source uses the global `testnet` for the network string) and creates
`UNLOCKED.txt`. -/
def writePreferences (mnemonic passphrase : String) (testnet : Bool) (fs : FS) : FS :=
  { fs with
    mnemonic_txt := some mnemonic
    passphrase_txt := some passphrase
    network_txt := some (if testnet then "testnet" else "mainnet")
    unlocked_txt := true }

/-- `deleteAllFiles(bool custom)` (memory.cpp lines 174-186): keeps the
custom-provided `mnemonic.txt`/`passphrase.txt`/`network.txt` when
`custom`, removes the marker files, and calls `FFat.rmdir` on the three
`/bip*` directories.  `FFat.rmdir` reaches FatFS `f_unlink`, which
fails with `FR_DENIED` on a non-empty directory; a `/bip*` directory
exists only after `deriveBIP` wrote its four output files into it, and
no code removes those files individually, so the three `rmdir` calls
fail and the directories are left in place (their return values are
discarded). -/
def deleteAllFiles (custom : Bool) (fs : FS) : FS :=
  let fs := if custom then fs else
    { fs with mnemonic_txt := none, passphrase_txt := none, network_txt := none }
  { fs with
    locked_txt := false
    unlocked_txt := false
    custom_txt := false }

/-- `checkFormat()` (memory.cpp lines 188-200): if `/FORMAT.txt`
exists, set status to `STATUS_FORMAT`, persist it when the NVS opens,
and remove the sentinel. -/
def checkFormat (nvsOk : Bool) (g : Globals) (nvs : NVS) (fs : FS) : StepResult :=
  if fs.format_txt then
    { g := { g with status := STATUS_FORMAT }
      nvs := if nvsOk then { nvs with status := some STATUS_FORMAT } else nvs
      fs := { fs with format_txt := false }
      trace := [.fsAccess, .nvsAccess, .fsAccess] }
  else
    { g := g, nvs := nvs, fs := fs, trace := [.fsAccess] }

/-- `checkUnlock()` (memory.cpp lines 202-220): if `/UNLOCK.txt`
exists, promote `Locked → Unlocked` or `CustomLocked → CustomUnlocked`
(any other status only logs), persist the (possibly unchanged) status
when the NVS opens, and remove the sentinel. -/
def checkUnlock (nvsOk : Bool) (g : Globals) (nvs : NVS) (fs : FS) : StepResult :=
  if fs.unlock_txt then
    let g :=
      if g.status = STATUS_LOCKED then { g with status := STATUS_UNLOCKED }
      else if g.status = STATUS_CUSTOM_LOCKED then { g with status := STATUS_CUSTOM_UNLOCKED }
      else g
    { g := g
      nvs := if nvsOk then { nvs with status := some g.status } else nvs
      fs := { fs with unlock_txt := false }
      trace := [.fsAccess, .nvsAccess, .fsAccess] }
  else
    { g := g, nvs := nvs, fs := fs, trace := [.fsAccess] }

/-- `checkCustom()` (memory.cpp lines 222-227): `/mnemonic.txt` exists. -/
def checkCustom (fs : FS) : Bool := fs.mnemonic_txt.isSome

/-- Store a freshly derived `BipDir` at its `/bip{index}` directory. -/
def setBip (fs : FS) (index : Nat) (d : BipDir) : FS :=
  if index = 44 then { fs with bip44 := some d }
  else if index = 49 then { fs with bip49 := some d }
  else if index = 84 then { fs with bip84 := some d }
  else fs

/-! ## processStatus (crypto.cpp lines 46-174) -/

/-- One `processStatus` pass, plus whether `ESP.restart()` was reached. -/
structure PSResult where
  g : Globals
  nvs : NVS
  fs : FS
  reboot : Bool
  trace : List InternalOp
deriving Repr

/-- Body of `case STATUS_EMPTY` (crypto.cpp lines 65-80): write help,
generate a fresh mnemonic (`gen`, abstracting `esp_fill_random`), clear
the passphrase, force testnet, persist everything with status
`STATUS_LOCKED`, and restart. -/
def emptyBody (gen : String) (nvsOk : Bool) (g : Globals) (nvs : NVS) (fs : FS) : PSResult :=
  let fs := writeHelp fs
  let g := { g with mnemonic := gen, passphrase := "", testnet := true,
                    status := STATUS_LOCKED }
  let nvs := if nvsOk then
    { nvs with mnemonic := some g.mnemonic, passphrase := some g.passphrase,
               testnet := some g.testnet, status := some STATUS_LOCKED }
    else nvs
  { g := g, nvs := nvs, fs := fs, reboot := true,
    trace := [.fsAccess] ++ (if nvsOk then [.nvsAccess] else []) }

/-- Body of `case STATUS_LOCKED` / `STATUS_UNLOCKED` and their custom
twins (crypto.cpp lines 81-110, 127-156): write help; when the NVS
opens, load the secrets and derive schemes 44, 49, 84; in the unlocked
cases additionally re-export the secrets via `writePreferences`.
On an NVS miss the source reads an uninitialized stack buffer; the
model keeps the previous in-memory value in that case. -/
def lockedBody (o : HDOracle) (nvsOk unlocked : Bool)
    (g : Globals) (nvs : NVS) (fs : FS) : PSResult :=
  let fs := writeHelp fs
  if nvsOk then
    let g := { g with mnemonic := nvs.mnemonic.getD g.mnemonic,
                      passphrase := nvs.passphrase.getD g.passphrase,
                      testnet := nvs.testnet.getD g.testnet }
    let fs := setBip fs 44 (deriveBIP o g.mnemonic g.passphrase g.testnet 44 unlocked)
    let fs := setBip fs 49 (deriveBIP o g.mnemonic g.passphrase g.testnet 49 unlocked)
    let fs := setBip fs 84 (deriveBIP o g.mnemonic g.passphrase g.testnet 84 unlocked)
    let fs := if unlocked then writePreferences g.mnemonic g.passphrase g.testnet fs else fs
    { g := g, nvs := nvs, fs := fs, reboot := false,
      trace := [.fsAccess, .nvsAccess, .fsAccess, .fsAccess, .fsAccess] ++
               (if unlocked then [.fsAccess] else []) }
  else
    { g := g, nvs := nvs, fs := fs, reboot := false, trace := [.fsAccess] }

/-- Body of `case STATUS_CUSTOM_EMPTY` (crypto.cpp lines 111-126):
write help, read the custom mnemonic/passphrase/network from the
filesystem, persist them with status `STATUS_CUSTOM_LOCKED`, restart.
The input files are read but not removed. -/
def customEmptyBody (nvsOk : Bool) (g : Globals) (nvs : NVS) (fs : FS) : PSResult :=
  let fs := writeHelp fs
  let g := { g with mnemonic := readMnemonic fs.mnemonic_txt,
                    passphrase := readPassphrase fs.passphrase_txt,
                    testnet := readNetwork fs.network_txt,
                    status := STATUS_CUSTOM_LOCKED }
  let nvs := if nvsOk then
    { nvs with mnemonic := some g.mnemonic, passphrase := some g.passphrase,
               testnet := some g.testnet, status := some STATUS_CUSTOM_LOCKED }
    else nvs
  { g := g, nvs := nvs, fs := fs, reboot := true,
    trace := [.fsAccess, .fsAccess, .fsAccess, .fsAccess] ++
             (if nvsOk then [.nvsAccess] else []) }

/-- Body of `case STATUS_FORMAT` (crypto.cpp lines 157-170): determine
custom vs. generated via `checkCustom`, erase the whole NVS register,
persist the next status, delete the generated files, restart. -/
def formatBody (nvsOk : Bool) (g : Globals) (nvs : NVS) (fs : FS) : PSResult :=
  let custom := checkCustom fs
  let g := { g with status := if custom then STATUS_CUSTOM_EMPTY else STATUS_EMPTY }
  let nvs := if nvsOk then
    { counter := none, status := some g.status, mnemonic := none,
      passphrase := none, testnet := none }
    else nvs
  let fs := deleteAllFiles custom fs
  { g := g, nvs := nvs, fs := fs, reboot := true,
    trace := [.fsAccess] ++ (if nvsOk then [.nvsAccess] else []) ++ [.fsAccess] }

/-- `processStatus()` (crypto.cpp lines 46-174).  `o` abstracts the
derivation library, `gen` the freshly generated mnemonic, `nvsOk`
whether `nvsOpen()` succeeds during this pass.  The C `switch` falls
through from `STATUS_UNKNOWN` into `STATUS_EMPTY` after persisting
`STATUS_EMPTY`; the fallthroughs after `ESP.restart()` calls are dead
code, since the restart ends the pass. -/
def processStatus (o : HDOracle) (gen : String) (nvsOk : Bool)
    (g0 : Globals) (nvs0 : NVS) (fs0 : FS) : PSResult :=
  -- nvsGetStatus: leaves the global untouched when the key is absent
  let g0 := if nvsOk then { g0 with status := nvs0.status.getD g0.status } else g0
  let r1 := checkFormat nvsOk g0 nvs0 fs0
  let r2 := checkUnlock nvsOk r1.g r1.nvs r1.fs
  let r :=
    if r2.g.status = STATUS_UNKNOWN then
      -- persist STATUS_EMPTY, then fall through into the STATUS_EMPTY body
      let nvs3 := if nvsOk then { r2.nvs with status := some STATUS_EMPTY } else r2.nvs
      let rE := emptyBody gen nvsOk { r2.g with status := STATUS_EMPTY } nvs3 r2.fs
      { rE with trace := (if nvsOk then [InternalOp.nvsAccess] else []) ++ rE.trace }
    else if r2.g.status = STATUS_EMPTY then emptyBody gen nvsOk r2.g r2.nvs r2.fs
    else if r2.g.status = STATUS_LOCKED then lockedBody o nvsOk false r2.g r2.nvs r2.fs
    else if r2.g.status = STATUS_UNLOCKED then lockedBody o nvsOk true r2.g r2.nvs r2.fs
    else if r2.g.status = STATUS_CUSTOM_EMPTY then customEmptyBody nvsOk r2.g r2.nvs r2.fs
    else if r2.g.status = STATUS_CUSTOM_LOCKED then lockedBody o nvsOk false r2.g r2.nvs r2.fs
    else if r2.g.status = STATUS_CUSTOM_UNLOCKED then lockedBody o nvsOk true r2.g r2.nvs r2.fs
    else if r2.g.status = STATUS_FORMAT then formatBody nvsOk r2.g r2.nvs r2.fs
    else { g := r2.g, nvs := r2.nvs, fs := r2.fs, reboot := false, trace := [] }
  { r with trace := (if nvsOk then [InternalOp.nvsAccess] else []) ++
                    r1.trace ++ r2.trace ++ r.trace }

/-! ## Boot sequence (main.cpp `setup()`, lines 26-52) -/

/-- The restart-counter slice of `setup()` (main.cpp lines 34-39):
`nvsGetCounter()` loads the stored value into the global
`restart_counter` (initialised to 0, crypto.cpp line 5; untouched when
the key is absent), then `nvsPutCounter(restart_counter++)` persists
the value of the expression `restart_counter++`, which is the
pre-increment value.  Returns (persisted value, in-memory value after). -/
def bootCounterPass (stored : Option Int) : Int × Int :=
  let rc := stored.getD 0
  (rc, rc + 1)

/-- The NVS register after the boot counter update (main.cpp lines 34-39). -/
def bootNvs (nvsOk : Bool) (nvs : NVS) : NVS :=
  if nvsOk then { nvs with counter := some (bootCounterPass nvs.counter).1 } else nvs

/-- The `processStatus` pass run by `setup()` after the counter update. -/
def setupPS (o : HDOracle) (gen : String) (nvsOk : Bool)
    (g : Globals) (nvs : NVS) (fs : FS) : PSResult :=
  processStatus o gen nvsOk g (bootNvs nvsOk nvs) fs

/-- Boot events before the handoff decision (main.cpp lines 31-44):
the counter update, the internal FAT mount, and the `processStatus`
pass's storage operations. -/
def setupPreEvents (o : HDOracle) (gen : String) (nvsOk : Bool)
    (g : Globals) (nvs : NVS) (fs : FS) : List Event :=
  (if nvsOk then [Event.nvsOp] else []) ++ [Event.internalMountEv] ++
    (setupPS o gen nvsOk g nvs fs).trace.map InternalOp.toEvent

/-- The boot-level event trace of `setup()` (main.cpp lines 26-52):
counter update, internal mount, the `processStatus` pass, then — only
when no restart was triggered inside the pass — NVS deinit, internal
unmount, and the host-facing external mount.  `ESP.restart()` inside
`processStatus` ends the boot before the unmount/export lines run. -/
def setupTrace (o : HDOracle) (gen : String) (nvsOk : Bool)
    (g : Globals) (nvs : NVS) (fs : FS) : List Event :=
  setupPreEvents o gen nvsOk g nvs fs ++
    (if (setupPS o gen nvsOk g nvs fs).reboot then [Event.rebootEv]
     else [Event.internalUnmountEv, Event.externalMountEv])

/-! ## Block export callbacks (memory.cpp lines 239-252) -/

/-- `BLOCK_SIZE` (memory.h line 11). -/
def BLOCK_SIZE : Nat := 4096

/-- Flash content of the exported partition region, byte-addressed. -/
structure Flash where
  mem : Nat → Nat

/-- `partitionEraseRange`: erases `[addr, addr+size)` to `0xFF`;
`ok` is the driver-level success report, which the caller receives. -/
def partitionEraseRange (ok : Bool) (f : Flash) (addr size : Nat) : Flash × Bool :=
  (⟨fun a => if addr ≤ a ∧ a < addr + size then 255 else f.mem a⟩, ok)

/-- `partitionWrite`: writes `size` bytes of `buffer` at `addr`. -/
def partitionWrite (ok : Bool) (f : Flash) (addr : Nat)
    (buffer : Nat → Nat) (size : Nat) : Flash × Bool :=
  (⟨fun a => if addr ≤ a ∧ a < addr + size then buffer (a - addr) else f.mem a⟩, ok)

/-- `onWrite` (memory.cpp lines 239-243): erase then write at
`offset + lba * BLOCK_SIZE`; the driver success flags are discarded and
`bufsize` is returned. -/
def onWrite (eraseOk writeOk : Bool) (f : Flash) (lba offset : Nat)
    (buffer : Nat → Nat) (bufsize : Nat) : Flash × Int :=
  let p1 := partitionEraseRange eraseOk f (offset + lba * BLOCK_SIZE) bufsize
  let p2 := partitionWrite writeOk p1.1 (offset + lba * BLOCK_SIZE) buffer bufsize
  (p2.1, (bufsize : Int))

/-- `onRead` (memory.cpp lines 245-248): read `bufsize` bytes at
`offset + lba * BLOCK_SIZE`; the driver success flag is discarded and
`bufsize` is returned. -/
def onRead (readOk : Bool) (f : Flash) (lba offset bufsize : Nat) :
    (Nat → Nat) × Int :=
  ((fun i => f.mem (offset + lba * BLOCK_SIZE + i)), (bufsize : Int))

/-- `onStartStop` (memory.cpp lines 250-252). -/
def onStartStop (power_condition : Nat) (start load_eject : Bool) : Bool := true

/-! ## Spec-side definition for claim C8 -/

/-- Modelled from the spec's words for `NETWORK.txt`: the content
contains the literal substring "testnet", compared case-insensitively.
Used to compare `readNetwork` against the specified selection rule. -/
def specNetworkSelectsTestnet (content : String) : Bool :=
  containsSubstring content.toLower "testnet"

/-! ## Concrete fixtures for witnesses and counterexamples -/

/-- A concrete derivation oracle for evaluating witnesses. -/
def o0 : HDOracle :=
  { xprv := fun _ _ p => "xprv:" ++ p
    xpub := fun _ _ p => "xpub:" ++ p
    childAddress := fun _ _ _ c => "addr:" ++ c
    childWif := fun _ _ _ c => "wif:" ++ c }

/-- Boot-time globals (crypto.cpp lines 3-7). -/
def g0 : Globals :=
  { status := STATUS_UNKNOWN, mnemonic := "", passphrase := "", testnet := true }

/-- A filesystem with no sentinel and no output files. -/
def fsEmpty : FS :=
  { format_txt := false, unlock_txt := false, locked_txt := false
    unlocked_txt := false, custom_txt := false, readme_txt := false
    mnemonic_txt := none, passphrase_txt := none, network_txt := none
    bip44 := none, bip49 := none, bip84 := none }

/-- A filesystem carrying host-supplied custom provisioning files. -/
def fsCustom : FS :=
  { fsEmpty with
    mnemonic_txt := some "custom seed words"
    passphrase_txt := some "pp"
    network_txt := some "mainnet" }

/-- A filesystem with only the `UNLOCK.txt` sentinel. -/
def fsUnlock : FS := { fsEmpty with unlock_txt := true }

/-- A register persisting status `Unknown`. -/
def nvsU : NVS :=
  { counter := none, status := some STATUS_UNKNOWN, mnemonic := none
    passphrase := none, testnet := none }

/-- A register persisting status `Locked` with a full secret. -/
def nvsL : NVS :=
  { counter := some 3, status := some STATUS_LOCKED
    mnemonic := some "word word word", passphrase := some ""
    testnet := some true }

/-- A register persisting status `CustomEmpty`. -/
def nvsCE : NVS :=
  { counter := some 3, status := some STATUS_CUSTOM_EMPTY, mnemonic := none
    passphrase := none, testnet := none }

/-- Globals whose status is `Format` (neither `Locked` nor `CustomLocked`). -/
def gFmt : Globals := { g0 with status := STATUS_FORMAT }

/-- A filesystem with only the `FORMAT.txt` sentinel. -/
def fsFormat : FS := { fsEmpty with format_txt := true }

/-- A filesystem as left by a locked pass — the three `/bip*`
directories populated with `deriveBIP`'s output — with the
`FORMAT.txt` sentinel added by the host. -/
def fsLockedFormat : FS :=
  { fsEmpty with
    format_txt := true
    readme_txt := true
    bip44 := some (deriveBIP o0 "word word word" "" true 44 false)
    bip49 := some (deriveBIP o0 "word word word" "" true 49 false)
    bip84 := some (deriveBIP o0 "word word word" "" true 84 false) }

/-! ## Helper lemmas for the boot trace -/

/-- The events of `setup()` before the handoff decision never include
the external mount: `processStatus` only performs internal storage
operations. -/
theorem external_not_in_preEvents (o : HDOracle) (gen : String) (nvsOk : Bool)
    (g : Globals) (nvs : NVS) (fs : FS) :
    Event.externalMountEv ∉ setupPreEvents o gen nvsOk g nvs fs := by
  intro h
  rcases List.mem_append.mp h with h | h
  · rcases List.mem_append.mp h with h | h
    · cases nvsOk <;> simp at h
    · simp at h
  · rcases List.mem_map.mp h with ⟨op, _, hop⟩
    cases op <;> simp [InternalOp.toEvent] at hop

/-- A boot trace either ends with a reboot or with the
unmount-then-export handoff. -/
theorem setupTrace_shape (o : HDOracle) (gen : String) (nvsOk : Bool)
    (g : Globals) (nvs : NVS) (fs : FS) :
    setupTrace o gen nvsOk g nvs fs =
      setupPreEvents o gen nvsOk g nvs fs ++ [Event.rebootEv]
    ∨ setupTrace o gen nvsOk g nvs fs =
      setupPreEvents o gen nvsOk g nvs fs ++
        [Event.internalUnmountEv, Event.externalMountEv] := by
  unfold setupTrace
  cases (setupPS o gen nvsOk g nvs fs).reboot
  · exact Or.inr rfl
  · exact Or.inl rfl

/-- In `l ++ [b]` with `b ∉ l`, the index of `b` is `l.length`. -/
theorem getElem_last_of_not_mem {α : Type} {l : List α} {b : α} (hb : b ∉ l)
    {i : Nat} (hi : (l ++ [b])[i]? = some b) : i = l.length := by
  rcases Nat.lt_trichotomy i l.length with h | h | h
  · rw [List.getElem?_append_left h] at hi
    exact absurd (List.getElem?_mem hi) hb
  · exact h
  · exfalso
    rw [List.getElem?_append_right (Nat.le_of_lt h)] at hi
    have h1 : ([b] : List α).length ≤ i - l.length := by simp; omega
    rw [List.getElem?_eq_none h1] at hi
    exact Option.noConfusion hi

/-! ## Claim theorems -/

/-- Claim C1: for every `deriveBIP(scheme, unlocked=false)` call, every
private-key-bearing field written to the filesystem — the xpriv file
content and the key column of all twenty rows of `addresses.txt` and
`changes.txt` — equals the fixed redaction marker `"**********"` and is
independent of the mnemonic and passphrase, while the xpub and all
twenty addresses are written in full via the derivation oracle; the
marker is substituted in the produced content itself, so no unredacted
private material reaches any write. -/
theorem c1_locked_redaction (o : HDOracle) (m p m2 p2 : String) (t : Bool)
    (idx : Nat) :
    (deriveBIP o m p t idx false).xpriv = "**********"
    ∧ (deriveBIP o m p t idx false).xprivFile = ["**********"]
    ∧ (deriveBIP o m p t idx false).addressRows.map Row.key =
        List.replicate 10 redactionMarker
    ∧ (deriveBIP o m p t idx false).changeRows.map Row.key =
        List.replicate 10 redactionMarker
    ∧ (deriveBIP o m2 p2 t idx false).xpriv = (deriveBIP o m p t idx false).xpriv
    ∧ (deriveBIP o m2 p2 t idx false).addressRows.map Row.key =
        (deriveBIP o m p t idx false).addressRows.map Row.key
    ∧ (deriveBIP o m2 p2 t idx false).changeRows.map Row.key =
        (deriveBIP o m p t idx false).changeRows.map Row.key
    ∧ (deriveBIP o m p t idx false).xpub = o.xpub m p (accountPath idx t)
    ∧ (deriveBIP o m p t idx false).addressRows.map Row.address =
        (List.range 10).map (fun i =>
          o.childAddress m p (accountPath idx t) ("m/0/" ++ toString i))
    ∧ (deriveBIP o m p t idx false).changeRows.map Row.address =
        (List.range 10).map (fun i =>
          o.childAddress m p (accountPath idx t) ("m/1/" ++ toString i)) :=
  ⟨rfl, rfl, rfl, rfl, rfl, rfl, rfl, rfl, rfl, rfl⟩

/-- Claim C2, counterexample: with no sentinel files present and
persisted status `Unknown` — one of the statuses the claim asserts is
left unchanged — a single `processStatus` pass persists `Locked`
(via the intentional `Unknown → Empty` switch fallthrough), so the
claim as stated is false. -/
theorem c2_steady_counterexample :
    fsEmpty.format_txt = false ∧ fsEmpty.unlock_txt = false
    ∧ nvsU.status = some STATUS_UNKNOWN
    ∧ (processStatus o0 "gen" true g0 nvsU fsEmpty).nvs.status = some STATUS_LOCKED
    ∧ (STATUS_LOCKED : Nat) ≠ STATUS_UNKNOWN :=
  ⟨rfl, rfl, rfl, rfl, by decide⟩

/-- Claim C2, amended: with no sentinel files present, for every
persisted status in {Locked, Unlocked, CustomLocked, CustomUnlocked}
(Unknown excluded: it bootstraps to Empty and then Locked in the same
pass), a single `processStatus` pass leaves the persisted status
unchanged. -/
theorem c2_steady_amended (o : HDOracle) (gen : String) (g : Globals)
    (nvs : NVS) (fs : FS) (s : Nat)
    (hs : s = STATUS_LOCKED ∨ s = STATUS_UNLOCKED ∨ s = STATUS_CUSTOM_LOCKED ∨
          s = STATUS_CUSTOM_UNLOCKED)
    (hnvs : nvs.status = some s)
    (hf : fs.format_txt = false) (hu : fs.unlock_txt = false) :
    (processStatus o gen true g nvs fs).nvs.status = some s := by
  rcases hs with rfl | rfl | rfl | rfl <;>
    simp [processStatus, checkFormat, checkUnlock, lockedBody, writeHelp, setBip,
          hnvs, hf, hu]

/-- Claim C2, witness for the amended theorem: persisted `Locked`
stays `Locked` across a pass on an empty filesystem. -/
theorem c2_steady_witness :
    (nvsL.status = some STATUS_LOCKED ∧ fsEmpty.format_txt = false ∧
      fsEmpty.unlock_txt = false)
    ∧ (processStatus o0 "gen" true g0 nvsL fsEmpty).nvs.status =
        some STATUS_LOCKED :=
  ⟨⟨rfl, rfl, rfl⟩,
   c2_steady_amended o0 "gen" g0 nvsL fsEmpty STATUS_LOCKED (Or.inl rfl) rfl rfl rfl⟩

/-- Claim C3, counterexample: with persisted status `CustomEmpty` and
host-supplied `mnemonic.txt`/`passphrase.txt`/`network.txt`, the
`processStatus` pass that consumes them completes (requesting a
reboot) with all three files still present — the custom provisioning
inputs are read but never deleted, so the claim as stated is false. -/
theorem c3_sentinel_counterexample :
    nvsCE.status = some STATUS_CUSTOM_EMPTY
    ∧ fsCustom.mnemonic_txt = some "custom seed words"
    ∧ (processStatus o0 "gen" true g0 nvsCE fsCustom).reboot = true
    ∧ (processStatus o0 "gen" true g0 nvsCE fsCustom).fs.mnemonic_txt =
        some "custom seed words"
    ∧ (processStatus o0 "gen" true g0 nvsCE fsCustom).fs.passphrase_txt = some "pp"
    ∧ (processStatus o0 "gen" true g0 nvsCE fsCustom).fs.network_txt =
        some "mainnet" :=
  ⟨rfl, rfl, rfl, rfl, rfl, rfl⟩

/-- Claim C3, amended: the `FORMAT.txt` and `UNLOCK.txt` sentinels are
deleted by the end of the check that consumes them, but the custom
provisioning files `MNEMONIC.txt`/`PASSPHRASE.txt`/`NETWORK.txt` read
during the `CustomEmpty` transition are left in place. -/
theorem c3_sentinel_amended :
    (∀ (nvsOk : Bool) (g : Globals) (nvs : NVS) (fs : FS), fs.format_txt = true →
      (checkFormat nvsOk g nvs fs).fs.format_txt = false)
    ∧ (∀ (nvsOk : Bool) (g : Globals) (nvs : NVS) (fs : FS), fs.unlock_txt = true →
      (checkUnlock nvsOk g nvs fs).fs.unlock_txt = false)
    ∧ (∀ (o : HDOracle) (gen : String) (g : Globals) (nvs : NVS) (fs : FS),
      nvs.status = some STATUS_CUSTOM_EMPTY → fs.format_txt = false →
      fs.unlock_txt = false →
      (processStatus o gen true g nvs fs).fs.mnemonic_txt = fs.mnemonic_txt
      ∧ (processStatus o gen true g nvs fs).fs.passphrase_txt = fs.passphrase_txt
      ∧ (processStatus o gen true g nvs fs).fs.network_txt = fs.network_txt) := by
  refine ⟨?_, ?_, ?_⟩
  · intro nvsOk g nvs fs hf
    simp [checkFormat, hf]
  · intro nvsOk g nvs fs hu
    simp [checkUnlock, hu]
  · intro o gen g nvs fs hnvs hf hu
    simp [processStatus, checkFormat, checkUnlock, customEmptyBody, writeHelp,
          hnvs, hf, hu]

/-- Claim C3, witness for the amended theorem: concrete sentinel
consumption and concrete retention of the provisioning files. -/
theorem c3_sentinel_witness :
    (fsFormat.format_txt = true ∧
      (checkFormat true g0 nvsL fsFormat).fs.format_txt = false)
    ∧ (fsUnlock.unlock_txt = true ∧
      (checkUnlock true g0 nvsL fsUnlock).fs.unlock_txt = false)
    ∧ ((processStatus o0 "gen" true g0 nvsCE fsCustom).fs.mnemonic_txt =
        fsCustom.mnemonic_txt
      ∧ (processStatus o0 "gen" true g0 nvsCE fsCustom).fs.passphrase_txt =
        fsCustom.passphrase_txt
      ∧ (processStatus o0 "gen" true g0 nvsCE fsCustom).fs.network_txt =
        fsCustom.network_txt) :=
  ⟨⟨rfl, c3_sentinel_amended.1 true g0 nvsL fsFormat rfl⟩,
   ⟨rfl, c3_sentinel_amended.2.1 true g0 nvsL fsUnlock rfl⟩,
   c3_sentinel_amended.2.2 o0 "gen" g0 nvsCE fsCustom rfl rfl rfl⟩

/-- Claim C4: the code persists the pre-increment value of the restart
counter (`nvsPutCounter(restart_counter++)`), so the value persisted by
a boot equals the previously persisted value instead of being one
greater; evaluated here at a stored counter of 5, the boot persists 5,
not 6. -/
theorem c4_counter_not_incremented :
    (bootCounterPass (some 5)).1 = 5 ∧ (bootCounterPass (some 5)).1 ≠ 5 + 1 :=
  ⟨rfl, by decide⟩

/-- Claim C5: the register-erase, next-status, file-removal, and
reboot parts of the format pass behave as claimed, but the `/bip*`
directories are not removed.  Evaluated at the failing input — a boot
with `FORMAT.txt` present, persisted status `Locked`, and the three
`/bip*` directories populated by an earlier locked pass — the pass
erases the register, persists `Empty`, removes the generated
mnemonic/passphrase/network files, and requests a reboot, yet all
three populated directories survive: `FFat.rmdir` fails on non-empty
directories and nothing removes the four files inside each.  This
contradicts the claim, the spec's format scenario, and the device's
own README text promising that format removes all previous
information. -/
theorem c5_format_rmdir_bug :
    fsLockedFormat.format_txt = true
    ∧ fsLockedFormat.bip44 = some (deriveBIP o0 "word word word" "" true 44 false)
    ∧ (processStatus o0 "gen" true g0 nvsL fsLockedFormat).nvs =
        { counter := none, status := some STATUS_EMPTY, mnemonic := none
          passphrase := none, testnet := none }
    ∧ (processStatus o0 "gen" true g0 nvsL fsLockedFormat).fs.mnemonic_txt = none
    ∧ (processStatus o0 "gen" true g0 nvsL fsLockedFormat).fs.passphrase_txt = none
    ∧ (processStatus o0 "gen" true g0 nvsL fsLockedFormat).fs.network_txt = none
    ∧ (processStatus o0 "gen" true g0 nvsL fsLockedFormat).reboot = true
    ∧ (processStatus o0 "gen" true g0 nvsL fsLockedFormat).fs.bip44 =
        some (deriveBIP o0 "word word word" "" true 44 false)
    ∧ (processStatus o0 "gen" true g0 nvsL fsLockedFormat).fs.bip49 =
        some (deriveBIP o0 "word word word" "" true 49 false)
    ∧ (processStatus o0 "gen" true g0 nvsL fsLockedFormat).fs.bip84 =
        some (deriveBIP o0 "word word word" "" true 84 false) :=
  ⟨rfl, rfl, rfl, rfl, rfl, rfl, rfl, rfl, rfl, rfl⟩

/-- Claim C6: in every boot trace, whenever the host-facing external
mount occurs at position `i`, the internal filesystem unmount occurs at
an earlier position, and no internal filesystem operation (mount, FAT
access, or unmount) occurs at any later position — the internal mount
and the external block export are never simultaneously active. -/
theorem c6_exclusive_handoff (o : HDOracle) (gen : String) (nvsOk : Bool)
    (g : Globals) (nvs : NVS) (fs : FS) (i : Nat)
    (hi : (setupTrace o gen nvsOk g nvs fs)[i]? = some Event.externalMountEv) :
    (∃ j, j < i ∧
      (setupTrace o gen nvsOk g nvs fs)[j]? = some Event.internalUnmountEv)
    ∧ (∀ k e, i < k → (setupTrace o gen nvsOk g nvs fs)[k]? = some e →
        e.isInternalFsOp = false) := by
  rcases setupTrace_shape o gen nvsOk g nvs fs with hsh | hsh
  · exfalso
    rw [hsh] at hi
    rcases List.mem_append.mp (List.getElem?_mem hi) with h | h
    · exact external_not_in_preEvents o gen nvsOk g nvs fs h
    · simp at h
  · have hnot : Event.externalMountEv ∉
        setupPreEvents o gen nvsOk g nvs fs ++ [Event.internalUnmountEv] := by
      intro h
      rcases List.mem_append.mp h with h | h
      · exact external_not_in_preEvents o gen nvsOk g nvs fs h
      · simp at h
    have hassoc : setupTrace o gen nvsOk g nvs fs =
        (setupPreEvents o gen nvsOk g nvs fs ++ [Event.internalUnmountEv]) ++
          [Event.externalMountEv] := by
      rw [hsh]; simp
    have hil : i =
        (setupPreEvents o gen nvsOk g nvs fs ++ [Event.internalUnmountEv]).length := by
      apply getElem_last_of_not_mem hnot
      rw [← hassoc]; exact hi
    have hlen : i = (setupPreEvents o gen nvsOk g nvs fs).length + 1 := by
      simpa using hil
    constructor
    · refine ⟨(setupPreEvents o gen nvsOk g nvs fs).length, by omega, ?_⟩
      rw [hassoc, List.getElem?_append_left (by simp),
          List.getElem?_append_right (Nat.le_refl _)]
      simp
    · intro k e hk hke
      have hlenle : (setupTrace o gen nvsOk g nvs fs).length ≤ k := by
        rw [hassoc]; simp; omega
      rw [List.getElem?_eq_none hlenle] at hke
      exact Option.noConfusion hke

/-- Claim C6, witness: in the concrete boot trace from persisted status
`Locked`, the external mount sits at index 11, the internal unmount
strictly before it, and nothing internal after it. -/
theorem c6_exclusive_handoff_witness :
    (setupTrace o0 "gen" true g0 nvsL fsEmpty)[11]? = some Event.externalMountEv
    ∧ ((∃ j, j < 11 ∧
        (setupTrace o0 "gen" true g0 nvsL fsEmpty)[j]? =
          some Event.internalUnmountEv)
      ∧ (∀ k e, 11 < k →
          (setupTrace o0 "gen" true g0 nvsL fsEmpty)[k]? = some e →
          e.isInternalFsOp = false)) :=
  ⟨rfl, c6_exclusive_handoff o0 "gen" true g0 nvsL fsEmpty 11 rfl⟩

/-- Claim C7: for each scheme in {44, 49, 84}, `deriveBIP` writes under
`/bip{scheme}`, derives the account key at `m/{scheme}'/1'/0'` on
testnet and `m/{scheme}'/0'/0'` on mainnet, and produces exactly ten
receive rows (paths `m/0/0..9` beneath the account) and ten change rows
(paths `m/1/0..9`), each rendered as tab-separated path, address,
key-or-marker. -/
theorem c7_account_layout (o : HDOracle) (m p : String) (t u : Bool) (idx : Nat)
    (hidx : idx = 44 ∨ idx = 49 ∨ idx = 84) :
    (deriveBIP o m p t idx u).dir = "/bip" ++ toString idx
    ∧ accountPath idx true = "m/" ++ toString idx ++ "'/1'/0'"
    ∧ accountPath idx false = "m/" ++ toString idx ++ "'/0'/0'"
    ∧ (deriveBIP o m p t idx u).xpub = o.xpub m p (accountPath idx t)
    ∧ (deriveBIP o m p t idx u).addressRows.length = 10
    ∧ (deriveBIP o m p t idx u).changeRows.length = 10
    ∧ (deriveBIP o m p t idx u).addressRows.map Row.path =
        (List.range 10).map (fun i => accountPath idx t ++ "/0/" ++ toString i)
    ∧ (deriveBIP o m p t idx u).changeRows.map Row.path =
        (List.range 10).map (fun i => accountPath idx t ++ "/1/" ++ toString i)
    ∧ (deriveBIP o m p t idx u).addressesFile =
        (deriveBIP o m p t idx u).addressRows.map
          (fun r => r.path ++ "\t" ++ r.address ++ "\t" ++ r.key)
    ∧ (deriveBIP o m p t idx u).changesFile =
        (deriveBIP o m p t idx u).changeRows.map
          (fun r => r.path ++ "\t" ++ r.address ++ "\t" ++ r.key) := by
  rcases hidx with rfl | rfl | rfl <;> cases t <;>
    exact ⟨rfl, rfl, rfl, rfl, rfl, rfl, rfl, rfl, rfl, rfl⟩

/-- Claim C7, witness: the layout at scheme 44, testnet, locked. -/
theorem c7_account_layout_witness :
    ((44 : Nat) = 44 ∨ (44 : Nat) = 49 ∨ (44 : Nat) = 84)
    ∧ ((deriveBIP o0 "m" "p" true 44 false).dir = "/bip" ++ toString (44 : Nat)
    ∧ accountPath 44 true = "m/" ++ toString (44 : Nat) ++ "'/1'/0'"
    ∧ accountPath 44 false = "m/" ++ toString (44 : Nat) ++ "'/0'/0'"
    ∧ (deriveBIP o0 "m" "p" true 44 false).xpub = o0.xpub "m" "p" (accountPath 44 true)
    ∧ (deriveBIP o0 "m" "p" true 44 false).addressRows.length = 10
    ∧ (deriveBIP o0 "m" "p" true 44 false).changeRows.length = 10
    ∧ (deriveBIP o0 "m" "p" true 44 false).addressRows.map Row.path =
        (List.range 10).map (fun i => accountPath 44 true ++ "/0/" ++ toString i)
    ∧ (deriveBIP o0 "m" "p" true 44 false).changeRows.map Row.path =
        (List.range 10).map (fun i => accountPath 44 true ++ "/1/" ++ toString i)
    ∧ (deriveBIP o0 "m" "p" true 44 false).addressesFile =
        (deriveBIP o0 "m" "p" true 44 false).addressRows.map
          (fun r => r.path ++ "\t" ++ r.address ++ "\t" ++ r.key)
    ∧ (deriveBIP o0 "m" "p" true 44 false).changesFile =
        (deriveBIP o0 "m" "p" true 44 false).changeRows.map
          (fun r => r.path ++ "\t" ++ r.address ++ "\t" ++ r.key)) :=
  ⟨Or.inl rfl, c7_account_layout o0 "m" "p" true false 44 (Or.inl rfl)⟩

/-- Claim C8, counterexample: when `NETWORK.txt` is absent, the claim
says mainnet is selected, but `readNetwork` returns `true` (testnet) —
absence defaults to testnet, matching the device's own README text. -/
theorem c8_network_counterexample :
    readNetwork none = true ∧ (true : Bool) ≠ false :=
  ⟨rfl, by decide⟩

/-- Claim C8, amended: when `NETWORK.txt` is present, testnet is
selected iff its content contains the literal substring "testnet"
compared case-insensitively; when the file is absent, testnet is
selected by default.  In the `CustomEmpty` provisioning pass, the
persisted network equals `readNetwork` of the file. -/
theorem c8_network_amended :
    (∀ c : String, readNetwork (some c) = specNetworkSelectsTestnet c)
    ∧ readNetwork none = true
    ∧ (∀ (o : HDOracle) (gen : String) (g : Globals) (nvs : NVS) (fs : FS),
        nvs.status = some STATUS_CUSTOM_EMPTY → fs.format_txt = false →
        fs.unlock_txt = false →
        (processStatus o gen true g nvs fs).nvs.testnet =
          some (readNetwork fs.network_txt)) := by
  refine ⟨?_, rfl, ?_⟩
  · intro c
    unfold readNetwork specNetworkSelectsTestnet
    cases h : containsSubstring c.toLower "testnet" <;> simp [h]
  · intro o gen g nvs fs hnvs hf hu
    simp [processStatus, checkFormat, checkUnlock, customEmptyBody, writeHelp,
          hnvs, hf, hu]

/-- Claim C8, witness for the amended theorem: concrete contents on
both sides of the rule, and a concrete `CustomEmpty` pass persisting
the file's selection. -/
theorem c8_network_witness :
    readNetwork (some "Use TESTNET please") =
      specNetworkSelectsTestnet "Use TESTNET please"
    ∧ readNetwork (some "mainnet") = specNetworkSelectsTestnet "mainnet"
    ∧ (processStatus o0 "gen" true g0 nvsCE fsCustom).nvs.testnet =
        some (readNetwork fsCustom.network_txt) :=
  ⟨c8_network_amended.1 "Use TESTNET please",
   c8_network_amended.1 "mainnet",
   c8_network_amended.2.2 o0 "gen" g0 nvsCE fsCustom rfl rfl rfl⟩

/-- Claim C9: for every status other than `Locked` and `CustomLocked`,
if `UNLOCK.txt` is present when `checkUnlock()` runs, the status is
left unchanged and the sentinel file is still deleted. -/
theorem c9_unlock_misuse (nvsOk : Bool) (g : Globals) (nvs : NVS) (fs : FS)
    (h1 : g.status ≠ STATUS_LOCKED) (h2 : g.status ≠ STATUS_CUSTOM_LOCKED)
    (hu : fs.unlock_txt = true) :
    (checkUnlock nvsOk g nvs fs).g.status = g.status
    ∧ (checkUnlock nvsOk g nvs fs).fs.unlock_txt = false := by
  unfold checkUnlock
  rw [hu]
  simp [if_neg h1, if_neg h2]

/-- Claim C9, witness: `UNLOCK.txt` present with status `Format`. -/
theorem c9_unlock_misuse_witness :
    (gFmt.status ≠ STATUS_LOCKED ∧ gFmt.status ≠ STATUS_CUSTOM_LOCKED ∧
      fsUnlock.unlock_txt = true)
    ∧ ((checkUnlock true gFmt nvsL fsUnlock).g.status = gFmt.status
      ∧ (checkUnlock true gFmt nvsL fsUnlock).fs.unlock_txt = false) :=
  ⟨⟨by decide, by decide, rfl⟩,
   c9_unlock_misuse true gFmt nvsL fsUnlock (by decide) (by decide) rfl⟩

/-- Claim C10: the block-device callbacks report no errors to the
host: `onWrite` and `onRead` return exactly the requested `bufsize`
for all inputs (discarding the flash driver's erase/write/read success
flags), and `onStartStop` returns `true` for all inputs. -/
theorem c10_callbacks_never_fail (eraseOk writeOk readOk : Bool) (f : Flash)
    (lba offset : Nat) (buffer : Nat → Nat) (bufsize : Nat) (p : Nat)
    (s l : Bool) :
    (onWrite eraseOk writeOk f lba offset buffer bufsize).2 = bufsize
    ∧ (onRead readOk f lba offset bufsize).2 = bufsize
    ∧ onStartStop p s l = true :=
  ⟨rfl, rfl, rfl⟩

end BitFloppy
